import Mathlib

/-!
Verification of the Artemis motor-controller script (`src/main.py`) against its
natural-language specification.

The embedding below translates, from the Python source:
  * the two pure decoders `NanoLibController.decode_status` and
    `NanoLibController.decode_mode`;
  * the gateway-access wrappers `read_number` / `write_number` (including their
    error paths, which reference the attribute `create_error_message` that the
    class `NanoLibController` never defines);
  * the static method `select_bus`;
  * the `__main__` motion sequence (status read, mode set, the 6/7/15
    controlword handshake, the four-iteration move loop, disconnect/close),
    modelled as a list of steps run by an interpreter against a gateway oracle
    that answers each bus transaction in order.
-/

namespace Artemis

set_option maxRecDepth 100000

/-- An object-dictionary address `(index, subindex)`, as in `Nanolib.OdIndex`. -/
structure OdIndex where
  index : Nat
  subindex : Nat
deriving DecidableEq, Repr

def od6040 : OdIndex := ⟨0x6040, 0x00⟩

def od6041 : OdIndex := ⟨0x6041, 0x00⟩

def od6060 : OdIndex := ⟨0x6060, 0x00⟩

def od6061 : OdIndex := ⟨0x6061, 0x00⟩

def od607A : OdIndex := ⟨0x607A, 0x00⟩

/-! ## Drive state decoding (`decode_status`, main.py lines 399-432) -/

/-- Row "Not ready to switch on" of the `state` dict in `decode_status`. -/
def notReadyVals : List Nat := [0, 16, 32, 48, 128, 160, 144, 176]

/-- Row "Switch on disabled" of the `state` dict in `decode_status`. -/
def switchOnDisabledVals : List Nat := [64, 80, 96, 112, 192, 208, 224, 240]

/-- Row "Ready to switch on" of the `state` dict in `decode_status`. -/
def readyToSwitchOnVals : List Nat := [33, 49, 161, 177]

/-- Row "Switched on" of the `state` dict in `decode_status`. -/
def switchedOnVals : List Nat := [35, 51, 163, 179]

/-- Row "Operation Enabled" of the `state` dict in `decode_status`. -/
def operationEnabledVals : List Nat := [39, 55, 167, 183]

/-- Row "Quick stop active" of the `state` dict in `decode_status`. -/
def quickStopVals : List Nat := [7, 23, 135, 151]

/-- Row "Fault reaction active" of the `state` dict in `decode_status`. -/
def faultReactionVals : List Nat := [15, 31, 47, 63, 143, 159, 175, 191]

/-- Row "Fault" of the `state` dict in `decode_status`. -/
def faultVals : List Nat := [8, 24, 40, 56, 136, 152, 168, 184]

/-- The eight value lists of the `decode_status` lookup table, in the order the
`if`/`elif` chain tests them. -/
def statusTables : List (List Nat) :=
  [notReadyVals, switchOnDisabledVals, readyToSwitchOnVals, switchedOnVals,
   operationEnabledVals, quickStopVals, faultReactionVals, faultVals]

/-- The `if`/`elif` chain of `decode_status` applied to the already-masked
status byte. -/
def decode_statusByte (sw : Nat) : String :=
  if sw ∈ notReadyVals then "Not ready to switch on"
  else if sw ∈ switchOnDisabledVals then "Switch on disabled"
  else if sw ∈ readyToSwitchOnVals then "Ready to switch on"
  else if sw ∈ switchedOnVals then "Switched on"
  else if sw ∈ operationEnabledVals then "Operation Enabled"
  else if sw ∈ quickStopVals then "Quick stop active"
  else if sw ∈ faultReactionVals then "Fault reaction active"
  else if sw ∈ faultVals then "Fault"
  else "Cannot determine controller state"

/-- `NanoLibController.decode_status`: mask the status word with
`0b0000000011111111` and look the byte up in the fixed table. -/
def decode_status (status_word : Nat) : String :=
  decode_statusByte (status_word &&& 0b0000000011111111)

/-! ## Operating mode decoding (`decode_mode`, main.py lines 434-457) -/

/-- `NanoLibController.decode_mode`: the `if`/`elif` chain over the signed
mode code. -/
def decode_mode (mode : Int) : String :=
  if mode = -2 then "Auto setup"
  else if mode = -1 then "Clock-direction mode"
  else if mode = 0 then "No mode change/no mode assigned"
  else if mode = 1 then "Profile Position Mode"
  else if mode = 2 then "Velocity Mode"
  else if mode = 3 then "Profile Velocity Mode"
  else if mode = 4 then "Profile Torque Mode"
  else if mode = 5 then "Reserved"
  else if mode = 6 then "Homing Mode"
  else "Error not able to determine mode"

/-! ## Spec-side tables (for the refinement claims)

The spec (§3, §4.1) names drive states with CamelCase labels; the code returns
the corresponding strings. The correspondence fixed by the spec's concrete
scenarios (§8) is: `ReadyToSwitchOn` ↔ "Ready to switch on",
`Fault` ↔ "Fault", `OperationEnabled` ↔ "Operation Enabled", and `Unknown` ↔
the fallback string "Cannot determine controller state". -/

/-- The enumerated drive states of spec §3. -/
inductive DriveState where
  | NotReadyToSwitchOn
  | SwitchOnDisabled
  | ReadyToSwitchOn
  | SwitchedOn
  | OperationEnabled
  | QuickStopActive
  | FaultReactionActive
  | Fault
  | Unknown
deriving DecidableEq, Repr

/-- The drive-state label strings the code uses, one per spec state. -/
def specStatusLabel : DriveState → String
  | DriveState.NotReadyToSwitchOn => "Not ready to switch on"
  | DriveState.SwitchOnDisabled => "Switch on disabled"
  | DriveState.ReadyToSwitchOn => "Ready to switch on"
  | DriveState.SwitchedOn => "Switched on"
  | DriveState.OperationEnabled => "Operation Enabled"
  | DriveState.QuickStopActive => "Quick stop active"
  | DriveState.FaultReactionActive => "Fault reaction active"
  | DriveState.Fault => "Fault"
  | DriveState.Unknown => "Cannot determine controller state"

/-- The masked-value table of spec §4.1, transcribed row by row from the spec
text (not from the code). -/
def specStatusTable : List (DriveState × List Nat) :=
  [(DriveState.NotReadyToSwitchOn, [0, 16, 32, 48, 128, 160, 144, 176]),
   (DriveState.SwitchOnDisabled, [64, 80, 96, 112, 192, 208, 224, 240]),
   (DriveState.ReadyToSwitchOn, [33, 49, 161, 177]),
   (DriveState.SwitchedOn, [35, 51, 163, 179]),
   (DriveState.OperationEnabled, [39, 55, 167, 183]),
   (DriveState.QuickStopActive, [7, 23, 135, 151]),
   (DriveState.FaultReactionActive, [15, 31, 47, 63, 143, 159, 175, 191]),
   (DriveState.Fault, [8, 24, 40, 56, 136, 152, 168, 184])]

/-! ## Exceptions and the gateway error path

On a gateway error, `read_number` / `write_number` in main.py execute
`raise Exception(self.create_error_message(...))`. Python evaluates the
attribute access `self.create_error_message` first; the name is resolved
against the methods the class defines. `NanoLibController` defines no method
named `create_error_message` (the list below is transcribed from the `def`
lines of the class body), so the attribute access itself raises
`AttributeError` before the intended `Exception` is built. -/

/-- A raised Python exception: either `Exception(msg)` or the
`AttributeError` produced by a failed attribute lookup. -/
inductive PyExc where
  | exc (msg : String)
  | attributeError (attr : String)
deriving DecidableEq, Repr

/-- The method names defined in the body of `class NanoLibController`
(main.py), in source order. -/
def controllerMethods : List String :=
  ["__init__", "setup", "set_logging_level", "get_bus_hardware", "select_bus",
   "bus_hardware_options", "open_bus_hardware", "close_bus_hardware",
   "scan_bus", "create_device", "connect_device", "disconnect_device",
   "read_number", "write_number", "read_array", "read_string",
   "decode_status", "decode_mode"]

/-- Modelled from the spec: the helper `create_error_message` is defined
nowhere under src/ (main.py only calls `self.create_error_message(...)`).
Per spec §7 it wraps the failed operation's name, the device handle, and the
OD index into a human-readable message. Only reachable if the attribute
lookup on `NanoLibController` succeeded, which it does not. -/
def create_error_message (op : String) (handle : Nat) (od : OdIndex)
    (errText : String) : String :=
  op ++ " failed for device " ++ toString handle ++ " at od index " ++
    toString od.index ++ ":" ++ toString od.subindex ++ " - " ++ errText

/-- The exception produced by `raise Exception(self.create_error_message(op,
device_handle, od_index, error))`: the attribute lookup consults the class's
method table, and on a miss Python raises `AttributeError` instead. -/
def raiseGateway (op : String) (handle : Nat) (od : OdIndex)
    (errText : String) : PyExc :=
  if "create_error_message" ∈ controllerMethods then
    PyExc.exc (create_error_message op handle od errText)
  else
    PyExc.attributeError "create_error_message"

/-! ## The gateway oracle and the register-access wrappers

A run of the script performs bus transactions in a fixed order; the oracle
`g : Gateway` answers the next transaction with `g 0` (either a numeric
result or the gateway's error text), and `shift g` is the oracle for the
remaining transactions. -/

/-- Answers of the vendor gateway, one per bus transaction, in order. -/
abbrev Gateway := Nat → Except String Nat

/-- The oracle left after one transaction has been consumed. -/
def shift (g : Gateway) : Gateway := fun n => g (n + 1)

/-- `NanoLibController.read_number`: returns the gateway result, or raises via
the (missing) `create_error_message` helper when the gateway reports an
error. Consumes one gateway transaction (`g 0`). -/
def read_number (g : Gateway) (handle : Nat) (od : OdIndex) :
    Except PyExc Nat :=
  match g 0 with
  | Except.ok v => Except.ok v
  | Except.error e => Except.error (raiseGateway "read_number" handle od e)

/-- `NanoLibController.write_number`: raises via the (missing)
`create_error_message` helper when the gateway reports an error. Consumes one
gateway transaction (`g 0`); the written value, od index and bit length are
recorded by the caller's trace. -/
def write_number (g : Gateway) (handle : Nat) (_value : Nat) (od : OdIndex)
    (_bits : Nat) : Except PyExc Unit :=
  match g 0 with
  | Except.ok _ => Except.ok ()
  | Except.error e => Except.error (raiseGateway "write_number" handle od e)

/-- `NanoLibController.disconnect_device`: raises a plain `Exception` with the
operation name when the gateway reports an error. -/
def disconnect_device (g : Gateway) : Except PyExc Unit :=
  match g 0 with
  | Except.ok _ => Except.ok ()
  | Except.error e =>
      Except.error (PyExc.exc ("Error: disconnectDevice() - " ++ e))

/-- `NanoLibController.close_bus_hardware`: raises a plain `Exception` with
the operation name when the gateway reports an error. -/
def close_bus_hardware (g : Gateway) : Except PyExc Unit :=
  match g 0 with
  | Except.ok _ => Except.ok ()
  | Except.error e =>
      Except.error (PyExc.exc ("Error: closeBusHardware() - " ++ e))

/-! ## The motion sequence (`__main__`, main.py lines 478-575)

The block after device connection is straight-line code: each statement is a
gateway access, a sleep, or a print. A read's value flows only into the
prints immediately following it (via `decode_status` / `decode_mode` or the
raw / binary formats); no statement branches on a value read from the
device. -/

/-- One console print of the sequence, keeping the data that flows into it. -/
inductive Out where
  /-- `print(f"\nCurrent controller state: {state}")` with the decoded state. -/
  | stateMsg (s : String)
  /-- `print(f"Controller mode: {mode}")` with the decoded mode. -/
  | modeMsg (s : String)
  /-- `print(control_word)`: the raw value. -/
  | num (n : Nat)
  /-- `print(f"{value:b}")`: the value, printed in binary. -/
  | bin (n : Nat)
  /-- `print(count)` at the end of a move-loop iteration. -/
  | count (n : Nat)

/-- One observable gateway/timing action of the sequence. -/
inductive Event where
  | readNum (od : OdIndex)
  | writeNum (value : Nat) (od : OdIndex) (bits : Nat)
  | sleepSec (secs : Nat)
  | disconnect
  | closeBus
deriving DecidableEq, Repr

/-- One statement of the `__main__` sequence. A read step carries the prints
fed by the value it returns. -/
inductive Step where
  | sread (od : OdIndex) (pr : Nat → List Out)
  | swrite (value : Nat) (od : OdIndex) (bits : Nat)
  | ssleep (secs : Nat)
  | sprint (o : Out)
  | sdisconnect
  | sclose

/-- Result of a run: the gateway/timing actions attempted in order, the
console output, and the exception that aborted the run (if any). -/
structure RunState where
  events : List Event
  output : List Out
  err : Option PyExc

/-- Runs the statements in order against the gateway oracle. A failing
gateway access raises: the failed access is the last event and no further
statement is executed. -/
def interp (handle : Nat) : Gateway → List Step → RunState
  | _, [] => ⟨[], [], none⟩
  | g, Step.sread od pr :: rest =>
      match read_number g handle od with
      | Except.error exc => ⟨[Event.readNum od], [], some exc⟩
      | Except.ok v =>
          let r := interp handle (shift g) rest
          ⟨Event.readNum od :: r.events, pr v ++ r.output, r.err⟩
  | g, Step.swrite v od bits :: rest =>
      match write_number g handle v od bits with
      | Except.error exc => ⟨[Event.writeNum v od bits], [], some exc⟩
      | Except.ok _ =>
          let r := interp handle (shift g) rest
          ⟨Event.writeNum v od bits :: r.events, r.output, r.err⟩
  | g, Step.ssleep n :: rest =>
      let r := interp handle g rest
      ⟨Event.sleepSec n :: r.events, r.output, r.err⟩
  | g, Step.sprint o :: rest =>
      let r := interp handle g rest
      ⟨r.events, o :: r.output, r.err⟩
  | g, Step.sdisconnect :: rest =>
      match disconnect_device g with
      | Except.error exc => ⟨[Event.disconnect], [], some exc⟩
      | Except.ok _ =>
          let r := interp handle (shift g) rest
          ⟨Event.disconnect :: r.events, r.output, r.err⟩
  | g, Step.sclose :: rest =>
      match close_bus_hardware g with
      | Except.error exc => ⟨[Event.closeBus], [], some exc⟩
      | Except.ok _ =>
          let r := interp handle (shift g) rest
          ⟨Event.closeBus :: r.events, r.output, r.err⟩

/-- main.py lines 478-509: status read and decode, mode set and read-back,
controlword read-back, the 6 / 7 / 15 enable handshake with 2 s waits, and
the diagnostic controlword / status reads. -/
def enableSteps : List Step :=
  [Step.sread od6041 (fun v => [Out.stateMsg (decode_status v)]),
   Step.swrite 1 od6060 8,
   Step.sread od6061 (fun v => [Out.modeMsg (decode_mode (Int.ofNat v))]),
   Step.sread od6040 (fun v => [Out.num v, Out.bin v]),
   Step.swrite 6 od6040 16,
   Step.ssleep 2,
   Step.swrite 7 od6040 16,
   Step.ssleep 2,
   Step.swrite 15 od6040 16,
   Step.sread od6040 (fun v => [Out.num v, Out.bin v]),
   Step.sread od6041 (fun v => [Out.bin v, Out.stateMsg (decode_status v)])]

/-- One iteration of the `for x in range(4)` move loop (main.py lines
523-534): target 1000, controlword `0b11111` then `0b1111`, wait, target 0,
the same toggle, wait, and the count print. -/
def moveIter (x : Nat) : List Step :=
  [Step.swrite 1000 od607A 32,
   Step.swrite 0b11111 od6040 16,
   Step.swrite 0b1111 od6040 16,
   Step.ssleep 2,
   Step.swrite 0 od607A 32,
   Step.swrite 0b11111 od6040 16,
   Step.swrite 0b1111 od6040 16,
   Step.ssleep 2,
   Step.sprint (Out.count (x + 1))]

/-- The whole `__main__` sequence after device connection: enable handshake,
four move-loop iterations, then disconnect and bus close. -/
def mainProgram : List Step :=
  enableSteps ++ (List.range 4).flatMap moveIter ++
    [Step.sdisconnect, Step.sclose]

/-- A run of the `__main__` sequence against a gateway oracle. -/
def mainRun (g : Gateway) (handle : Nat) : RunState :=
  interp handle g mainProgram

/-! ## Event classifiers used by the sequencing claims -/

/-- Is this event a write to the target-position register 0x607A? -/
def Event.isTargetWrite : Event → Bool
  | Event.writeNum _ od _ => od = od607A
  | _ => false

/-- Is this event a write to the controlword register 0x6040? -/
def Event.isCwWrite : Event → Bool
  | Event.writeNum _ od _ => od = od6040
  | _ => false

/-- Is this event a register write at all? -/
def Event.isWrite : Event → Bool
  | Event.writeNum _ _ _ => true
  | _ => false

/-- The value of a controlword write, `none` for any other event. -/
def Event.cwValue : Event → Option Nat
  | Event.writeNum v od _ => if od = od6040 then some v else none
  | _ => none

/-- The value of a mode-register (0x6060) write, `none` for other events. -/
def Event.modeValue : Event → Option Nat
  | Event.writeNum v od _ => if od = od6060 then some v else none
  | _ => none

/-! ## Bus selection (`select_bus`, main.py lines 131-143) -/

/-- Python's substring containment `needle in hay` on the character lists. -/
def subList (needle : List Char) : List Char → Bool
  | [] => needle.isEmpty
  | c :: rest => needle.isPrefixOf (c :: rest) || subList needle rest

/-- `'Nanotec VCP' in name`, Python's substring test. -/
def strContains (hay needle : String) : Bool :=
  subList needle.data hay.data

/-- The `for` loop of `select_bus`: `i` counts entries, and each entry whose
name contains 'Nanotec VCP' overwrites the selection. Python initialises the
selection with the sentinel `''`; since `0 == ''` is `False` in Python, the
sentinel is faithfully an `Option` that matching entries replace. -/
def select_busLoop : List String → Nat → Option Nat → Option Nat
  | [], _, acc => acc
  | name :: rest, i, acc =>
      select_busLoop rest (i + 1)
        (if strContains name "Nanotec VCP" then some i else acc)

/-- `NanoLibController.select_bus`, applied to the names of the bus-hardware
entries: returns the selected index, or raises when no entry matched. -/
def select_bus (busNames : List String) : Except PyExc Nat :=
  match select_busLoop busNames 0 none with
  | some idx => Except.ok idx
  | none => Except.error (PyExc.exc "No USB Nanotec Controller Found")

/-! ## The event trace of a fully successful run -/

/-- Events of one half-cycle of the move loop: the target-position write for
`p`, the `0b11111` / `0b1111` controlword toggle, and the 2 s wait. -/
def halfCycle (p : Nat) : List Event :=
  [Event.writeNum p od607A 32, Event.writeNum 0b11111 od6040 16,
   Event.writeNum 0b1111 od6040 16, Event.sleepSec 2]

/-- Events of the enable phase (main.py lines 478-509). -/
def enableTrace : List Event :=
  [Event.readNum od6041, Event.writeNum 1 od6060 8, Event.readNum od6061,
   Event.readNum od6040, Event.writeNum 6 od6040 16, Event.sleepSec 2,
   Event.writeNum 7 od6040 16, Event.sleepSec 2, Event.writeNum 15 od6040 16,
   Event.readNum od6040, Event.readNum od6041]

/-- The full event trace of a run in which every gateway call succeeds. -/
def fullTrace : List Event :=
  enableTrace ++ (List.replicate 4 (halfCycle 1000 ++ halfCycle 0)).flatten ++
    [Event.disconnect, Event.closeBus]

/-- When every gateway call succeeds, the sequence performs exactly the events
of `fullTrace` and raises nothing. -/
theorem mainRun_allSuccess (g : Gateway) (val : Nat → Nat) (handle : Nat)
    (hg : ∀ n, g n = Except.ok (val n)) :
    (mainRun g handle).events = fullTrace ∧ (mainRun g handle).err = none := by
  have hprog : mainProgram =
      enableSteps ++ (moveIter 0 ++ (moveIter 1 ++ (moveIter 2 ++
        (moveIter 3 ++ [])))) ++ [Step.sdisconnect, Step.sclose] := rfl
  constructor <;>
    simp [mainRun, hprog, enableSteps, moveIter, interp, shift, read_number,
      write_number, disconnect_device, close_bus_hardware, hg, fullTrace,
      enableTrace, halfCycle]

/-! ## Spec-side operating-mode table (spec §4.2) -/

/-- The enumerated operating modes of spec §3. -/
inductive OperatingMode where
  | AutoSetup
  | ClockDirection
  | NoChange
  | ProfilePosition
  | Velocity
  | ProfileVelocity
  | ProfileTorque
  | Reserved
  | Homing
  | Unknown
deriving DecidableEq, Repr

/-- The operating-mode label strings the code uses, one per spec mode. -/
def specModeLabel : OperatingMode → String
  | OperatingMode.AutoSetup => "Auto setup"
  | OperatingMode.ClockDirection => "Clock-direction mode"
  | OperatingMode.NoChange => "No mode change/no mode assigned"
  | OperatingMode.ProfilePosition => "Profile Position Mode"
  | OperatingMode.Velocity => "Velocity Mode"
  | OperatingMode.ProfileVelocity => "Profile Velocity Mode"
  | OperatingMode.ProfileTorque => "Profile Torque Mode"
  | OperatingMode.Reserved => "Reserved"
  | OperatingMode.Homing => "Homing Mode"
  | OperatingMode.Unknown => "Error not able to determine mode"

/-- The mode-code table of spec §4.2 / the C5 claim: the nine defined codes
and their labels, transcribed from the spec's words. -/
def specModeTable : List (Int × OperatingMode) :=
  [(-2, OperatingMode.AutoSetup), (-1, OperatingMode.ClockDirection),
   (0, OperatingMode.NoChange), (1, OperatingMode.ProfilePosition),
   (2, OperatingMode.Velocity), (3, OperatingMode.ProfileVelocity),
   (4, OperatingMode.ProfileTorque), (5, OperatingMode.Reserved),
   (6, OperatingMode.Homing)]

/-! ## Claim theorems for the two decoders -/

/-- The spec table, checked against the code's lookup for every masked byte. -/
theorem decode_statusByte_spec :
    ∀ m, m < 256 →
      (∀ p ∈ specStatusTable, m ∈ p.2 →
        decode_statusByte m = specStatusLabel p.1) ∧
      ((∀ p ∈ specStatusTable, m ∉ p.2) →
        decode_statusByte m = "Cannot determine controller state") := by
  decide

/-- C1: for every 16-bit status word, `decode_status` masks the input with
0x00FF and returns exactly the drive-state label of the spec §4.1 row
containing the masked value, and the Unknown label ("Cannot determine
controller state") when no row lists it. -/
theorem decode_status_matches_spec_table :
    ∀ x : Nat, x < 65536 →
      (∀ p ∈ specStatusTable, (x &&& 0x00FF) ∈ p.2 →
        decode_status x = specStatusLabel p.1) ∧
      ((∀ p ∈ specStatusTable, (x &&& 0x00FF) ∉ p.2) →
        decode_status x = specStatusLabel DriveState.Unknown) := by
  intro x _
  have h1 : x &&& 0x00FF ≤ 0x00FF := Nat.and_le_right
  have hb := decode_statusByte_spec (x &&& 0x00FF) (by omega)
  exact ⟨fun p hp hm => hb.1 p hp hm, fun hnone => hb.2 hnone⟩

/-- Witness for C1, the spec §8 scenario `decode_status(0x1F08)` (masked
value 8): the code returns the Fault label. -/
theorem decode_status_matches_spec_table_witness :
    decode_status 0x1F08 = specStatusLabel DriveState.Fault :=
  (decode_status_matches_spec_table 0x1F08 (by decide)).1
    (DriveState.Fault, [8, 24, 40, 56, 136, 152, 168, 184])
    (by decide) (by decide)

/-- C5: `decode_mode` returns exactly the label of each of the nine defined
mode codes, and the Unknown label ("Error not able to determine mode") for
every other integer. -/
theorem decode_mode_matches_spec :
    (∀ p ∈ specModeTable, decode_mode p.1 = specModeLabel p.2) ∧
    (∀ m : Int, m ∉ ([-2, -1, 0, 1, 2, 3, 4, 5, 6] : List Int) →
      decode_mode m = specModeLabel OperatingMode.Unknown) := by
  constructor
  · decide
  · intro m hm
    simp only [List.mem_cons, List.not_mem_nil, or_false, not_or] at hm
    obtain ⟨h1, h2, h3, h4, h5, h6, h7, h8, h9⟩ := hm
    simp [decode_mode, specModeLabel, h1, h2, h3, h4, h5, h6, h7, h8, h9]

/-- Witness for C5, the spec §8 scenario `decode_mode(42)`: the fallback
label. -/
theorem decode_mode_matches_spec_witness :
    decode_mode 42 = specModeLabel OperatingMode.Unknown :=
  decode_mode_matches_spec.2 42 (by decide)

/-- ORing the high byte into a value does not change its low byte. -/
theorem or_high_byte_and_mask (x : Nat) :
    (x ||| 0xFF00) &&& 0x00FF = x &&& 0x00FF := by
  apply Nat.eq_of_testBit_eq
  intro i
  simp only [Nat.testBit_and, Nat.testBit_or]
  rcases Nat.lt_or_ge i 8 with h | h
  · have h1 : Nat.testBit 0xFF00 i = false := by interval_cases i <;> decide
    simp [h1]
  · have h2 : Nat.testBit 0x00FF i = false :=
      Nat.testBit_lt_two_pow
        (lt_of_lt_of_le (by norm_num)
          (Nat.pow_le_pow_right (by norm_num) h))
    simp [h2]

/-- C6: `decode_status` is invariant to the high byte of its 16-bit input:
`decode_status x = decode_status (x ||| 0xFF00)`. -/
theorem decode_status_high_byte_invariant :
    ∀ x : Nat, x < 65536 → decode_status x = decode_status (x ||| 0xFF00) := by
  intro x _
  unfold decode_status
  rw [or_high_byte_and_mask]

/-- Witness for C6 at the spec's ReadyToSwitchOn byte 33. -/
theorem decode_status_high_byte_invariant_witness :
    decode_status 33 = decode_status (33 ||| 0xFF00) :=
  decode_status_high_byte_invariant 33 (by decide)

/-- C9: the eight value lists of the `decode_status` table are pairwise
disjoint, so every masked byte is listed in at most one row and the
`if`/`elif` testing order cannot change the result. -/
theorem status_table_rows_disjoint :
    statusTables.Pairwise (fun A B => ∀ v ∈ A, v ∉ B) ∧
    (∀ m, m < 256 →
      statusTables.countP (fun A => decide (m ∈ A)) ≤ 1) := by
  constructor
  · decide
  · decide

/-- Witness for C9 at masked value 33: it is listed in at most one row. -/
theorem status_table_rows_disjoint_witness :
    statusTables.countP (fun A => decide (33 ∈ A)) ≤ 1 :=
  status_table_rows_disjoint.2 33 (by decide)

/-! ## Claim theorems for the motion sequence -/

/-- C2: when every gateway call succeeds, the controlword writes issued
before any target-position write are exactly 6, 7, 15 in that order, and the
only mode-register write issued before the first controlword write is the
operating-mode write of 1. -/
theorem enable_sequence_controlword_order (g : Gateway) (val : Nat → Nat)
    (handle : Nat) (hg : ∀ n, g n = Except.ok (val n)) :
    ((mainRun g handle).events.takeWhile
        (fun e => !e.isTargetWrite)).filterMap Event.cwValue = [6, 7, 15] ∧
    ((mainRun g handle).events.takeWhile
        (fun e => !e.isCwWrite)).filterMap Event.modeValue = [1] := by
  rw [(mainRun_allSuccess g val handle hg).1]
  constructor <;> decide

/-- Witness for C2 on the always-succeeding gateway stub. -/
theorem enable_sequence_controlword_order_witness :
    ((mainRun (fun _ => Except.ok 0) 0).events.takeWhile
        (fun e => !e.isTargetWrite)).filterMap Event.cwValue = [6, 7, 15] ∧
    ((mainRun (fun _ => Except.ok 0) 0).events.takeWhile
        (fun e => !e.isCwWrite)).filterMap Event.modeValue = [1] :=
  enable_sequence_controlword_order (fun _ => Except.ok 0) (fun _ => 0) 0
    (fun _ => rfl)

/-- C7: when every gateway call succeeds, every repetition of the move loop
performs, in order, the target-position write, the `0b11111` / `0b1111`
controlword toggle and a wait for target 1000 and then the same for target 0;
each half-cycle contains exactly two controlword writes, with values
`0b11111` then `0b1111`. -/
theorem move_loop_structure (g : Gateway) (val : Nat → Nat) (handle : Nat)
    (hg : ∀ n, g n = Except.ok (val n)) :
    (mainRun g handle).events =
      enableTrace ++
        (List.replicate 4 (halfCycle 1000 ++ halfCycle 0)).flatten ++
        [Event.disconnect, Event.closeBus] ∧
    (halfCycle 1000).filterMap Event.cwValue = [0b11111, 0b1111] ∧
    (halfCycle 0).filterMap Event.cwValue = [0b11111, 0b1111] ∧
    ((halfCycle 1000).filter Event.isCwWrite).length = 2 ∧
    ((halfCycle 0).filter Event.isCwWrite).length = 2 := by
  refine ⟨(mainRun_allSuccess g val handle hg).1, ?_, ?_, ?_, ?_⟩ <;> decide

/-- Witness for C7 on an always-succeeding gateway stub. -/
theorem move_loop_structure_witness :
    (mainRun (fun _ => Except.ok 1) 0).events =
      enableTrace ++
        (List.replicate 4 (halfCycle 1000 ++ halfCycle 0)).flatten ++
        [Event.disconnect, Event.closeBus] ∧
    (halfCycle 1000).filterMap Event.cwValue = [0b11111, 0b1111] ∧
    (halfCycle 0).filterMap Event.cwValue = [0b11111, 0b1111] ∧
    ((halfCycle 1000).filter Event.isCwWrite).length = 2 ∧
    ((halfCycle 0).filter Event.isCwWrite).length = 2 :=
  move_loop_structure (fun _ => Except.ok 1) (fun _ => 1) 0 (fun _ => rfl)

/-- The attribute lookup for `create_error_message` fails on
`NanoLibController`, so a failing gateway access raises `AttributeError`. -/
theorem raiseGateway_attrError (op : String) (handle : Nat) (od : OdIndex)
    (e : String) :
    raiseGateway op handle od e =
      PyExc.attributeError "create_error_message" := by
  have h : "create_error_message" ∉ controllerMethods := by decide
  simp [raiseGateway, h]

/-- The event prefix attempted when the controlword-7 write (the sixth
gateway transaction) fails: the failed write is the last event. -/
def abortedTrace : List Event :=
  [Event.readNum od6041, Event.writeNum 1 od6060 8, Event.readNum od6061,
   Event.readNum od6040, Event.writeNum 6 od6040 16, Event.sleepSec 2,
   Event.writeNum 7 od6040 16]

/-- C3: if the write of controlword = 7 fails (the first five gateway calls
succeed, the sixth reports an error), the run raises immediately: the failed
write is the last event, no controlword-15 write and no target-position write
is attempted, and the failed write is not retried. -/
theorem write_failure_aborts_sequence (g : Gateway) (val : Nat → Nat)
    (emsg : String) (handle : Nat)
    (hok : ∀ n, n < 5 → g n = Except.ok (val n))
    (hfail : g 5 = Except.error emsg) :
    (mainRun g handle).events = abortedTrace ∧
    (mainRun g handle).err =
      some (PyExc.attributeError "create_error_message") ∧
    Event.writeNum 15 od6040 16 ∉ (mainRun g handle).events ∧
    (∀ e ∈ (mainRun g handle).events, e.isTargetWrite = false) ∧
    (mainRun g handle).events.count (Event.writeNum 7 od6040 16) = 1 := by
  have h0 := hok 0 (by omega)
  have h1 := hok 1 (by omega)
  have h2 := hok 2 (by omega)
  have h3 := hok 3 (by omega)
  have h4 := hok 4 (by omega)
  have hev : (mainRun g handle).events = abortedTrace ∧
      (mainRun g handle).err =
        some (PyExc.attributeError "create_error_message") := by
    constructor <;>
      simp [mainRun, mainProgram, enableSteps, interp, shift, read_number,
        write_number, raiseGateway_attrError, h0, h1, h2, h3, h4, hfail,
        abortedTrace]
  refine ⟨hev.1, hev.2, ?_, ?_, ?_⟩ <;> rw [hev.1] <;> decide

/-- Witness for C3: the spec §8 gateway-failure scenario, failing exactly the
controlword-7 write. -/
theorem write_failure_aborts_sequence_witness :
    (mainRun (fun n => if n = 5 then Except.error "bus failure"
        else Except.ok 0) 0).events = abortedTrace :=
  (write_failure_aborts_sequence
    (fun n => if n = 5 then Except.error "bus failure" else Except.ok 0)
    (fun _ => 0) "bus failure" 0
    (fun n hn => by simp [show n ≠ 5 by omega]) (by simp)).1

/-- C4 (the code contradicts it): `NanoLibController` defines no
`create_error_message` method, so when a gateway read or write reports
failure, the raised exception is the `AttributeError` of the failed attribute
lookup — not an `Exception` whose message names the operation, handle and OD
index. -/
theorem gateway_error_message_bug :
    "create_error_message" ∉ controllerMethods ∧
    (∀ (g : Gateway) (handle v : Nat) (od : OdIndex) (bits : Nat)
        (e : String), g 0 = Except.error e →
      write_number g handle v od bits =
        Except.error (PyExc.attributeError "create_error_message")) ∧
    (∀ (g : Gateway) (handle : Nat) (od : OdIndex) (e : String),
      g 0 = Except.error e →
      read_number g handle od =
        Except.error (PyExc.attributeError "create_error_message")) ∧
    (∀ s : String,
      PyExc.attributeError "create_error_message" ≠ PyExc.exc s) := by
  refine ⟨by decide, ?_, ?_, ?_⟩
  · intro g handle v od bits e hf
    simp [write_number, hf, raiseGateway_attrError]
  · intro g handle od e hf
    simp [read_number, hf, raiseGateway_attrError]
  · intro s h
    exact PyExc.noConfusion h

/-- Witness for C4: a failing controlword write raises the bare
`AttributeError`. -/
theorem gateway_error_message_bug_witness :
    write_number (fun _ => Except.error "bus failure") 0 7 od6040 16 =
      Except.error (PyExc.attributeError "create_error_message") :=
  gateway_error_message_bug.2.1 (fun _ => Except.error "bus failure")
    0 7 od6040 16 "bus failure" rfl

/-- Did the gateway answer this transaction with a result (rather than an
error)? -/
def okShape : Except String Nat → Bool
  | Except.ok _ => true
  | Except.error _ => false

/-- The events a run attempts depend only on which gateway answers are
successes, never on the numeric values returned. -/
theorem interp_events_shape (handle : Nat) :
    ∀ (prog : List Step) (g g' : Gateway),
      (∀ n, okShape (g n) = okShape (g' n)) →
      (interp handle g prog).events = (interp handle g' prog).events := by
  intro prog
  induction prog with
  | nil => intro g g' _; rfl
  | cons s rest ih =>
    intro g g' hsh
    have hsh' : ∀ n, okShape (shift g n) = okShape (shift g' n) :=
      fun n => hsh (n + 1)
    have hcontr : okShape (g 0) = okShape (g' 0) := hsh 0
    cases s with
    | sread od pr =>
        rcases hcg : g 0 with e | v <;> rcases hcg' : g' 0 with e' | v' <;>
          rw [hcg, hcg'] at hcontr <;> simp [okShape] at hcontr <;>
          simp [interp, read_number, hcg, hcg', ih _ _ hsh']
    | swrite v od bits =>
        rcases hcg : g 0 with e | v <;> rcases hcg' : g' 0 with e' | v' <;>
          rw [hcg, hcg'] at hcontr <;> simp [okShape] at hcontr <;>
          simp [interp, write_number, hcg, hcg', ih _ _ hsh']
    | ssleep secs => simp [interp, ih _ _ hsh]
    | sprint o => simp [interp, ih _ _ hsh]
    | sdisconnect =>
        rcases hcg : g 0 with e | v <;> rcases hcg' : g' 0 with e' | v' <;>
          rw [hcg, hcg'] at hcontr <;> simp [okShape] at hcontr <;>
          simp [interp, disconnect_device, hcg, hcg', ih _ _ hsh']
    | sclose =>
        rcases hcg : g 0 with e | v <;> rcases hcg' : g' 0 with e' | v' <;>
          rw [hcg, hcg'] at hcontr <;> simp [okShape] at hcontr <;>
          simp [interp, close_bus_hardware, hcg, hcg', ih _ _ hsh']

/-- C8: the initial status-word read is informational only — two runs whose
gateways differ only in the value answered to the first transaction issue the
identical sequence of register writes (addresses, values and order). -/
theorem status_read_informational_only (g g' : Gateway) (a b : Nat)
    (handle : Nat) (hg : g 0 = Except.ok a) (hg' : g' 0 = Except.ok b)
    (hagree : ∀ n, n ≠ 0 → g n = g' n) :
    (mainRun g handle).events.filter Event.isWrite =
      (mainRun g' handle).events.filter Event.isWrite := by
  have hsh : ∀ n, okShape (g n) = okShape (g' n) := by
    intro n
    rcases Nat.eq_zero_or_pos n with h | h
    · subst h; rw [hg, hg']; rfl
    · rw [hagree n (by omega)]
  rw [mainRun, mainRun, interp_events_shape handle mainProgram g g' hsh]

/-- Witness for C8: two stub gateways that disagree only on the initial
status-word value issue the same writes. -/
theorem status_read_informational_only_witness :
    (mainRun (fun _ => Except.ok 5) 0).events.filter Event.isWrite =
      (mainRun (fun n => if n = 0 then Except.ok 77 else Except.ok 5)
        0).events.filter Event.isWrite :=
  status_read_informational_only (fun _ => Except.ok 5)
    (fun n => if n = 0 then Except.ok 77 else Except.ok 5) 5 77 0
    rfl rfl (fun n hn => by simp [hn])

/-- If no remaining entry matches, the `select_bus` loop keeps its current
selection. -/
theorem select_busLoop_none (names : List String) :
    ∀ (i : Nat) (acc : Option Nat),
      (∀ n ∈ names, strContains n "Nanotec VCP" = false) →
      select_busLoop names i acc = acc := by
  induction names with
  | nil => intro i acc _; rfl
  | cons name rest ih =>
    intro i acc hall
    have h1 : strContains name "Nanotec VCP" = false := hall name (by simp)
    have h2 : ∀ n ∈ rest, strContains n "Nanotec VCP" = false :=
      fun n hn => hall n (by simp [hn])
    simp [select_busLoop, h1, ih (i + 1) acc h2]

/-- The `select_bus` loop selects the position of the last matching entry,
offset by the running index `i`, regardless of the selection made so far. -/
theorem select_busLoop_last (names : List String) :
    ∀ (i : Nat) (acc : Option Nat) (j : Nat) (hj : j < names.length),
      strContains (names.get ⟨j, hj⟩) "Nanotec VCP" = true →
      (∀ k (hk : k < names.length), j < k →
        strContains (names.get ⟨k, hk⟩) "Nanotec VCP" = false) →
      select_busLoop names i acc = some (i + j) := by
  induction names with
  | nil => intro i acc j hj; exact absurd hj (by simp)
  | cons name rest ih =>
    intro i acc j hj hmatch hafter
    cases j with
    | zero =>
      have hname : strContains name "Nanotec VCP" = true := hmatch
      have hrest : ∀ n ∈ rest, strContains n "Nanotec VCP" = false := by
        intro n hn
        obtain ⟨k, hget⟩ := List.mem_iff_get.mp hn
        have hk1 : (k : Nat) + 1 < (name :: rest).length := by
          simp [Nat.succ_lt_succ k.isLt]
        have := hafter ((k : Nat) + 1) hk1 (Nat.succ_pos _)
        rw [← hget]
        simpa using this
      simp [select_busLoop, hname,
        select_busLoop_none rest (i + 1) (some i) hrest]
    | succ j' =>
      have hj' : j' < rest.length := by
        have := hj; simp at this; omega
      have hmatch' : strContains (rest.get ⟨j', hj'⟩) "Nanotec VCP" = true := by
        simpa using hmatch
      have hafter' : ∀ k (hk : k < rest.length), j' < k →
          strContains (rest.get ⟨k, hk⟩) "Nanotec VCP" = false := by
        intro k hk hlt
        have hk1 : k + 1 < (name :: rest).length := by simp; omega
        have := hafter (k + 1) hk1 (by omega)
        simpa using this
      have hrec := ih (i + 1)
        (if strContains name "Nanotec VCP" then some i else acc)
        j' hj' hmatch' hafter'
      rw [select_busLoop, hrec]
      congr 1
      omega

/-- C10: `select_bus` returns the index of the last entry whose name contains
the substring 'Nanotec VCP', and raises (returns no index) when no entry's
name contains it. -/
theorem select_bus_last_match (names : List String) :
    ((∀ n ∈ names, strContains n "Nanotec VCP" = false) →
      select_bus names =
        Except.error (PyExc.exc "No USB Nanotec Controller Found")) ∧
    (∀ j (hj : j < names.length),
      strContains (names.get ⟨j, hj⟩) "Nanotec VCP" = true →
      (∀ k (hk : k < names.length), j < k →
        strContains (names.get ⟨k, hk⟩) "Nanotec VCP" = false) →
      select_bus names = Except.ok j) := by
  constructor
  · intro hall
    simp [select_bus, select_busLoop_none names 0 none hall]
  · intro j hj hmatch hafter
    simp [select_bus, select_busLoop_last names 0 none j hj hmatch hafter]

/-- Witness for C10: with two matching entries the later index is returned,
and with no matching entry the lookup raises. -/
theorem select_bus_last_match_witness :
    select_bus ["CAN Adapter", "Nanotec VCP", "Nanotec VCP 2"] =
      Except.ok 2 ∧
    select_bus ["CAN Adapter"] =
      Except.error (PyExc.exc "No USB Nanotec Controller Found") :=
  ⟨(select_bus_last_match _).2 2 (by decide) (by decide)
      (fun k hk hlt => by
        have hk3 : k < 3 := by simpa using hk
        exact absurd hlt (by omega)),
    (select_bus_last_match _).1 (by decide)⟩

end Artemis
